import Mathlib

/-!
Verification development for the Mann-Whitney U analysis script
(src/mann-whitney-u.py).

The script is a single procedural pipeline: read a table, split it into
two labelled groups, run a Mann-Whitney U test (delegated to a statistics
library), derive an effect size, assemble descriptive statistics, and
build timestamped output file names.

Embedding choices:
* table cells are either strings (group labels) or rationals (numeric
  values); Python floats are embedded as rationals;
* a data frame is a list of rows, a row is an association list from
  column names to cells, mirroring row-wise access in pandas;
* the statistics library (scipy / numpy) is an abstract component
  `StatsLib` with fields for `mannwhitneyu`, `norm.ppf` and `sqrt`;
  the facts of its documented behaviour that the claims rely on are
  collected in the interface predicate `LibSpec`;
* a fallible computation (a library error aborting the run) is `none`;
* `datetime.now()` is made explicit as a `Timestamp` argument.
-/

namespace MannWhitney

/-- A spreadsheet cell: a string (group label) or a numeric value. -/
inductive Cell where
  | str : String → Cell
  | num : ℚ → Cell
deriving DecidableEq, Repr

/-- A row of the data frame: an association list from column names to cells. -/
abbrev Row := List (String × Cell)

/-- A data frame: the ordered list of rows read from the spreadsheet. -/
abbrev DataFrame := List Row

/-- Source line 36/37, inner part: the boolean mask `df[group_column] == name`
applied to one row — true when the group-column cell of the row is the string
`name` (pandas elementwise equality of a cell with a string). -/
def rowMatches (group_column name : String) (r : Row) : Bool :=
  decide (List.lookup group_column r = some (Cell.str name))

/-- Source lines 36-37: `df[df[group_column] == name][value_column]` — the
value-column entries of the rows whose group-column entry equals `name`,
in row order.  Each entry is `Option Cell` because a row may lack the
column. -/
def groupData (df : DataFrame) (group_column value_column name : String) :
    List (Option Cell) :=
  (df.filter (rowMatches group_column name)).map
    (fun r => List.lookup value_column r)

/-- Conversion of an extracted pandas Series into the numeric sample the
statistics library consumes: succeeds only when every entry is present
and numeric (otherwise the library call would raise). -/
def toNums : List (Option Cell) → Option (List ℚ)
  | [] => some []
  | some (Cell.num q) :: rest => (toNums rest).map (fun l => q :: l)
  | _ :: _ => none

/-- Sorted copy of a sample, ascending (the order statistics that pandas
median/quantile are computed from). -/
def sortedVals (xs : List ℚ) : List ℚ :=
  xs.insertionSort (· ≤ ·)

/-- Pandas `Series.quantile` with the default linear interpolation:
position `q * (n-1)` into the sorted sample, interpolating linearly
between the neighbouring order statistics.  `none` on an empty sample
(pandas returns NaN there). -/
def quantile (xs : List ℚ) (q : ℚ) : Option ℚ :=
  match xs with
  | [] => none
  | _ :: _ =>
    let s := sortedVals xs
    let n := s.length
    let pos : ℚ := q * ((n : ℚ) - 1)
    let i : ℕ := (Int.floor pos).toNat
    let frac : ℚ := pos - Int.floor pos
    let lo := s.getD i 0
    let hi := s.getD (i + 1) lo
    some (lo + frac * (hi - lo))

/-- Pandas `Series.median`: the 0.5 linear-interpolation quantile (middle
order statistic for odd length, average of the two middle ones for even
length).  `none` on an empty sample. -/
def median (xs : List ℚ) : Option ℚ :=
  quantile xs (1/2)

/-- Pandas `Series.mean`: sum over count; `none` on an empty sample. -/
def meanQ (xs : List ℚ) : Option ℚ :=
  match xs with
  | [] => none
  | _ :: _ => some (xs.sum / (xs.length : ℚ))

/-- Pandas `Series.var` with the default `ddof = 1`: squared deviations
from the mean over `n - 1`.  For fewer than two observations the
denominator is zero and pandas produces NaN, embedded as `none`. -/
def sampleVar (xs : List ℚ) : Option ℚ :=
  if xs.length < 2 then none
  else some (((xs.map (fun x => (x - xs.sum / (xs.length : ℚ)) ^ 2)).sum)
    / ((xs.length : ℚ) - 1))

/-- The column of one group in the `desc_stats` table built on source lines
52-61: count, median, mean, std (ddof 1), 25th and 75th percentile.
`std` is the square root of `sampleVar`; the square-root function of the
numerics library is passed in as `sq`. -/
structure DescStats where
  count : ℕ
  median : Option ℚ
  mean : Option ℚ
  std : Option ℚ
  q25 : Option ℚ
  q75 : Option ℚ
deriving DecidableEq, Repr

/-- Source lines 52-61: the descriptive statistics of one group. -/
def descStats (sq : ℚ → ℚ) (xs : List ℚ) : DescStats where
  count := xs.length
  median := median xs
  mean := meanQ xs
  std := (sampleVar xs).map sq
  q25 := quantile xs (1/4)
  q75 := quantile xs (3/4)

/-- The statistics library the script delegates to (scipy / numpy):
`mannwhitneyu` returns the U statistic and the two-sided p-value, or
fails; `normPpf` is `scipy.stats.norm.ppf`, the inverse standard-normal
CDF; `sqrt` is `numpy.sqrt`.  Floats are embedded as rationals. -/
structure StatsLib where
  mannwhitneyu : List ℚ → List ℚ → Option (ℚ × ℚ)
  normPpf : ℚ → ℚ
  sqrt : ℚ → ℚ

/-- Documented behaviour of the statistics library that the claims rely
on: `mannwhitneyu` fails exactly on a degenerate (empty) sample; the
two-sided p-value of two samples with equal value multisets is 1; the
inverse normal CDF is monotone, vanishes at 1/2, and is at most -3 at
1/2000 (the true value is about -3.29); `sqrt 20` is positive and at
most 5 (the true value is about 4.47). -/
structure LibSpec (lib : StatsLib) : Prop where
  mwu_none_iff : ∀ xs ys, lib.mannwhitneyu xs ys = none ↔ (xs = [] ∨ ys = [])
  mwu_identical : ∀ xs ys u p, xs.Perm ys →
    lib.mannwhitneyu xs ys = some (u, p) → p = 1
  ppf_half : lib.normPpf (1/2) = 0
  ppf_mono : Monotone lib.normPpf
  ppf_lo : lib.normPpf (1/2000) ≤ -3
  sqrt20_pos : 0 < lib.sqrt 20
  sqrt20_le : lib.sqrt 20 ≤ 5

/-- Source lines 129-141: qualitative interpretation of the effect size
following the Cohen guidelines. -/
def interpret_effect_size (r : ℚ) : String :=
  if r < 0.10 then "Negligible effect"
  else if r < 0.30 then "Small effect"
  else if r < 0.50 then "Medium effect"
  else "Large effect"

/-- The wall-clock instant `datetime.now()` is called, made explicit. -/
structure Timestamp where
  year : ℕ
  month : ℕ
  day : ℕ
  hour : ℕ
  minute : ℕ
  second : ℕ
deriving DecidableEq, Repr

/-- Zero-padding to two digits, as the strftime codes %m, %d, %H, %M, %S do. -/
def pad2 (n : ℕ) : String :=
  if n < 10 then "0" ++ Nat.repr n else Nat.repr n

/-- Zero-padding to four digits, as the strftime code %Y does. -/
def pad4 (n : ℕ) : String :=
  if n < 10 then "000" ++ Nat.repr n
  else if n < 100 then "00" ++ Nat.repr n
  else if n < 1000 then "0" ++ Nat.repr n
  else Nat.repr n

/-- Source line 78: `datetime.now().strftime` with format string
YYYYMMDD underscore HHMMSS (second-level resolution). -/
def fmtTimestamp (t : Timestamp) : String :=
  pad4 t.year ++ pad2 t.month ++ pad2 t.day ++ "_" ++
    pad2 t.hour ++ pad2 t.minute ++ pad2 t.second

/-- Everything `perform_mannwhitney_analysis` computes and emits: the
results record of source lines 64-75, the two descriptive-statistics
columns, and the two output file names of lines 81 and 112. -/
structure AnalysisOutput where
  testType : String
  uStatistic : ℚ
  pValue : ℚ
  effectSize : ℚ
  interpretation : String
  significant : String
  group1 : String
  group2 : String
  group1Median : Option ℚ
  group2Median : Option ℚ
  descStats1 : DescStats
  descStats2 : DescStats
  excelFile : String
  plotFile : String
deriving DecidableEq, Repr

/-- Source lines 8-116, the whole pipeline minus rendering: extract the
two group samples (lines 36-37), run the test (lines 40-44), derive the
effect size from the p-value (lines 46-49), build the descriptive
statistics (lines 52-61) and the results record (lines 64-75), and form
the timestamped output file names (lines 78-81 and 112).  `none` models
an uncaught library error aborting the run. -/
def perform_mannwhitney_analysis (lib : StatsLib) (df : DataFrame)
    (group_column value_column group1_name group2_name out_pfx : String)
    (now : Timestamp) : Option AnalysisOutput :=
  match toNums (groupData df group_column value_column group1_name),
        toNums (groupData df group_column value_column group2_name) with
  | some group1_data, some group2_data =>
    match lib.mannwhitneyu group1_data group2_data with
    | some (statistic, p_value) =>
      let n1 := group1_data.length
      let n2 := group2_data.length
      let z_score := lib.normPpf (p_value / 2)
      let effect_size := |z_score / lib.sqrt ((n1 : ℚ) + (n2 : ℚ))|
      let timestamp := fmtTimestamp now
      some
        { testType := "Mann-Whitney U Test"
          uStatistic := statistic
          pValue := p_value
          effectSize := effect_size
          interpretation := interpret_effect_size effect_size
          significant := if p_value < 0.05 then "Yes" else "No"
          group1 := group1_name
          group2 := group2_name
          group1Median := median group1_data
          group2Median := median group2_data
          descStats1 := descStats lib.sqrt group1_data
          descStats2 := descStats lib.sqrt group2_data
          excelFile := out_pfx ++ "_results_" ++ timestamp ++ ".xlsx"
          plotFile := out_pfx ++ "_plot_" ++ timestamp ++ ".png" }
    | none => none
  | _, _ => none

/-- Spec model of the Splitter contract (spec section 4.2), written from
the words of the spec: walk the rows in order and keep the value-column entry
of every row whose label column equals the target string. Compared with
`groupData`, the definition taken from source lines 36-37. -/
def splitterSpecModel (df : DataFrame) (group_column value_column name : String) :
    List (Option Cell) :=
  match df with
  | [] => []
  | r :: rest =>
    if List.lookup group_column r = some (Cell.str name) then
      List.lookup value_column r :: splitterSpecModel rest group_column value_column name
    else
      splitterSpecModel rest group_column value_column name

/-- A row of the end-to-end scenario dataset labelled Control. -/
def ctrlRow (q : ℚ) : Row := [("Group", Cell.str "Control"), ("Value", Cell.num q)]

/-- A row of the end-to-end scenario dataset labelled Treatment. -/
def trtRow (q : ℚ) : Row := [("Group", Cell.str "Treatment"), ("Value", Cell.num q)]

/-- The end-to-end scenario input: 10 Control rows with values 1-10
followed by 10 Treatment rows with values 11-20. -/
def df20 : DataFrame :=
  [ctrlRow 1, ctrlRow 2, ctrlRow 3, ctrlRow 4, ctrlRow 5,
   ctrlRow 6, ctrlRow 7, ctrlRow 8, ctrlRow 9, ctrlRow 10,
   trtRow 11, trtRow 12, trtRow 13, trtRow 14, trtRow 15,
   trtRow 16, trtRow 17, trtRow 18, trtRow 19, trtRow 20]

/-- The Control sample of the end-to-end scenario. -/
def controlVals : List ℚ := [1,2,3,4,5,6,7,8,9,10]

/-- The Treatment sample of the end-to-end scenario. -/
def treatmentVals : List ℚ := [11,12,13,14,15,16,17,18,19,20]

/-- A concrete statistics library used to exhibit satisfiability of the
`LibSpec` interface: the Mann-Whitney call fails exactly on an empty
sample, reports p = 1 when the two samples sort to the same list (in
particular whenever they are permutations of each other) and p = 0
otherwise; the inverse normal CDF is a monotone step function vanishing
at and above 1/4; the square root is the constant 4. -/
def wLib : StatsLib where
  mannwhitneyu xs ys :=
    if xs = [] ∨ ys = [] then none
    else if sortedVals xs = sortedVals ys then some (0, 1)
    else some (0, 0)
  normPpf q := if q < 1/4 then -3 else 0
  sqrt _ := 4

/-- A concrete timestamp for instantiations. -/
def wTs : Timestamp := ⟨2025, 1, 2, 3, 4, 5⟩

/-- A two-row dataset with one value in group A and one in group B. -/
def wdf : DataFrame :=
  [[("Group", Cell.str "A"), ("Value", Cell.num 5)],
   [("Group", Cell.str "B"), ("Value", Cell.num 7)]]

/-- A three-row dataset whose group A holds exactly one value. -/
def dfSingle : DataFrame :=
  [[("Group", Cell.str "A"), ("Value", Cell.num 4)],
   [("Group", Cell.str "B"), ("Value", Cell.num 1)],
   [("Group", Cell.str "B"), ("Value", Cell.num 3)]]

/-- A two-row dataset whose two groups hold the same single value, for
the identical-samples instantiation. -/
def dfTwin : DataFrame :=
  [[("Group", Cell.str "A"), ("Value", Cell.num 5)],
   [("Group", Cell.str "B"), ("Value", Cell.num 5)]]

/-! ## Helper lemmas shared by the claim theorems -/

/-- Inversion of one pipeline run: a successful run determines the two
extracted samples, the library result, and every field of the output. -/
theorem perform_some {lib : StatsLib} {df : DataFrame}
    {gc vc g1 g2 pf : String} {ts : Timestamp} {r : AnalysisOutput}
    (h : perform_mannwhitney_analysis lib df gc vc g1 g2 pf ts = some r) :
    ∃ xs ys u p,
      toNums (groupData df gc vc g1) = some xs ∧
      toNums (groupData df gc vc g2) = some ys ∧
      lib.mannwhitneyu xs ys = some (u, p) ∧
      r = { testType := "Mann-Whitney U Test"
            uStatistic := u
            pValue := p
            effectSize := |lib.normPpf (p / 2) /
              lib.sqrt ((xs.length : ℚ) + (ys.length : ℚ))|
            interpretation := interpret_effect_size
              |lib.normPpf (p / 2) / lib.sqrt ((xs.length : ℚ) + (ys.length : ℚ))|
            significant := if p < 0.05 then "Yes" else "No"
            group1 := g1
            group2 := g2
            group1Median := median xs
            group2Median := median ys
            descStats1 := descStats lib.sqrt xs
            descStats2 := descStats lib.sqrt ys
            excelFile := pf ++ "_results_" ++ fmtTimestamp ts ++ ".xlsx"
            plotFile := pf ++ "_plot_" ++ fmtTimestamp ts ++ ".png" } := by
  unfold perform_mannwhitney_analysis at h
  split at h
  · rename_i xs ys h1 h2
    split at h
    · rename_i u p h3
      exact ⟨xs, ys, u, p, h1, h2, h3, (Option.some.inj h).symm⟩
    · exact Option.noConfusion h
  · exact Option.noConfusion h

/-- Forward evaluation of one pipeline run from its three inputs. -/
theorem perform_eval {lib : StatsLib} {df : DataFrame}
    {gc vc g1 g2 pf : String} {ts : Timestamp} {xs ys : List ℚ} {u p : ℚ}
    (h1 : toNums (groupData df gc vc g1) = some xs)
    (h2 : toNums (groupData df gc vc g2) = some ys)
    (h3 : lib.mannwhitneyu xs ys = some (u, p)) :
    perform_mannwhitney_analysis lib df gc vc g1 g2 pf ts =
      some { testType := "Mann-Whitney U Test"
             uStatistic := u
             pValue := p
             effectSize := |lib.normPpf (p / 2) /
               lib.sqrt ((xs.length : ℚ) + (ys.length : ℚ))|
             interpretation := interpret_effect_size
               |lib.normPpf (p / 2) / lib.sqrt ((xs.length : ℚ) + (ys.length : ℚ))|
             significant := if p < 0.05 then "Yes" else "No"
             group1 := g1
             group2 := g2
             group1Median := median xs
             group2Median := median ys
             descStats1 := descStats lib.sqrt xs
             descStats2 := descStats lib.sqrt ys
             excelFile := pf ++ "_results_" ++ fmtTimestamp ts ++ ".xlsx"
             plotFile := pf ++ "_plot_" ++ fmtTimestamp ts ++ ".png" } := by
  unfold perform_mannwhitney_analysis
  simp only [h1, h2, h3]

/-- The concrete library `wLib` satisfies the interface `LibSpec`, so the
interface hypotheses of the claim theorems are satisfiable. -/
theorem wLib_spec : LibSpec wLib := by
  refine ⟨?_, ?_, ?_, ?_, ?_, ?_, ?_⟩
  · intro xs ys
    simp only [wLib]
    split_ifs with h1 h2 <;> simp [h1]
  · intro xs ys u p hperm h
    have hsort : sortedVals xs = sortedVals ys := by
      have p1 : List.Perm (sortedVals xs) (sortedVals ys) :=
        ((List.perm_insertionSort _ xs).trans hperm).trans
          (List.perm_insertionSort _ ys).symm
      exact List.eq_of_perm_of_sorted p1
        (List.sorted_insertionSort _ xs) (List.sorted_insertionSort _ ys)
    by_cases hn : xs = [] ∨ ys = []
    · simp [wLib, hn] at h
    · simp only [wLib, if_neg hn, if_pos hsort] at h
      simp at h
      exact h.2.symm
  · norm_num [wLib]
  · intro a b hab
    simp only [wLib]
    split_ifs with h1 h2 h3
    · exact le_refl _
    · norm_num
    · exact absurd (lt_of_le_of_lt hab h3) h1
    · exact le_refl _
  · norm_num [wLib]
  · norm_num [wLib]
  · norm_num [wLib]

/-- Exact length of the decimal digit string of `n` in the digit range
`[10^e, 10^(e+1))`, by induction on `e`. -/
theorem toDigitsCore_length_eq :
    ∀ (e f n : ℕ), 10 ^ e ≤ n → n < 10 ^ (e + 1) → n < f →
      (Nat.toDigitsCore 10 f n []).length = e + 1 := by
  intro e
  induction e with
  | zero =>
    intro f n h1 h2 hf
    match f, hf with
    | f + 1, _ =>
      have hd : n / 10 = 0 := Nat.div_eq_of_lt (by simpa using h2)
      simp [Nat.toDigitsCore, hd]
  | succ e ih =>
    intro f n h1 h2 hf
    match f, hf with
    | f + 1, hf =>
      have h10 : (10 : ℕ) ≤ n := by
        calc (10 : ℕ) = 10 ^ 1 := by norm_num
        _ ≤ 10 ^ (e + 1) := Nat.pow_le_pow_right (by norm_num) (by omega)
        _ ≤ n := h1
      have hd : ¬ (n / 10 = 0) := by omega
      have hub : n / 10 < 10 ^ (e + 1) := by
        rw [Nat.div_lt_iff_lt_mul (by norm_num)]
        calc n < 10 ^ (e + 1 + 1) := h2
        _ = 10 ^ (e + 1) * 10 := by ring
      have hlb : 10 ^ e ≤ n / 10 := by
        rw [Nat.le_div_iff_mul_le (by norm_num)]
        calc 10 ^ e * 10 = 10 ^ (e + 1) := by ring
        _ ≤ n := h1
      have hfuel : n / 10 < f := by omega
      have := ih f (n / 10) hlb hub hfuel
      simp only [Nat.toDigitsCore, hd, if_false]
      rw [Nat.toDigitsCore_lens_eq]
      omega

/-- Exact length of `Nat.repr` from the digit range of `n`. -/
theorem repr_length_eq (n e : ℕ) (h1 : 10 ^ e ≤ n) (h2 : n < 10 ^ (e + 1)) :
    (Nat.repr n).length = e + 1 := by
  have h := toDigitsCore_length_eq e (n + 1) n h1 h2 (Nat.lt_succ_self n)
  simpa [Nat.repr, Nat.toDigits, String.length, List.asString] using h

/-- One-digit numbers print with one character. -/
theorem repr_length_lt10 : ∀ n : ℕ, n < 10 → (Nat.repr n).length = 1 := by decide

/-- Two-digit zero-padding always yields two characters below 100. -/
theorem pad2_length : ∀ n : ℕ, n < 100 → (pad2 n).length = 2 := by
  intro n h
  unfold pad2
  split_ifs with ha
  · rw [String.length_append, repr_length_lt10 n ha]
    decide
  · have h2 := repr_length_eq n 1 (by norm_num; omega) (by norm_num; omega)
    omega

/-- Four-digit zero-padding always yields four characters below 10000. -/
theorem pad4_length : ∀ n : ℕ, n < 10000 → (pad4 n).length = 4 := by
  intro n h
  unfold pad4
  split_ifs with ha hb hc
  · rw [String.length_append, repr_length_lt10 n ha]
    decide
  · have h2 := repr_length_eq n 1 (by norm_num; omega) (by norm_num; omega)
    rw [String.length_append, h2]
    decide
  · have h2 := repr_length_eq n 2 (by norm_num; omega) (by norm_num; omega)
    rw [String.length_append, h2]
    decide
  · have h2 := repr_length_eq n 3 (by norm_num; omega) (by norm_num; omega)
    omega

/-- When no row of the data frame carries the requested label, the
extracted series is empty (the Splitter performs no emptiness check). -/
theorem groupData_nil_of_absent (df : DataFrame) (gc vc g : String)
    (h : ∀ r ∈ df, ¬ List.lookup gc r = some (Cell.str g)) :
    groupData df gc vc g = [] := by
  have hf : df.filter (rowMatches gc g) = [] := by
    rw [List.filter_eq_nil_iff]
    intro a ha
    simp [rowMatches, h a ha]
  simp [groupData, hf]



/-! ## Claim theorems -/

/-- C1: for every successful run, the reported effect size equals
the absolute value of z over the square root of n1 + n2, where z is the
inverse standard-normal CDF applied to half the reported p-value; in
particular it is a function of the p-value and the group sizes alone,
not of the rank-sum statistic. -/
theorem C1_effect_size_from_p {lib : StatsLib} {df : DataFrame}
    {gc vc g1 g2 pf : String} {ts : Timestamp} {r : AnalysisOutput}
    (h : perform_mannwhitney_analysis lib df gc vc g1 g2 pf ts = some r) :
    r.effectSize = |lib.normPpf (r.pValue / 2) /
      lib.sqrt ((r.descStats1.count : ℚ) + (r.descStats2.count : ℚ))| := by
  obtain ⟨xs, ys, u, p, h1, h2, h3, rfl⟩ := perform_some h
  simp [descStats]

theorem C1_effect_size_from_p_witness :
    ∃ r, perform_mannwhitney_analysis wLib wdf "Group" "Value" "A" "B" "m" wTs
        = some r ∧
      r.effectSize = |wLib.normPpf (r.pValue / 2) /
        wLib.sqrt ((r.descStats1.count : ℚ) + (r.descStats2.count : ℚ))| := by
  have h1 : toNums (groupData wdf "Group" "Value" "A") = some [5] := by decide
  have h2 : toNums (groupData wdf "Group" "Value" "B") = some [7] := by decide
  have h3 : wLib.mannwhitneyu [5] [7] = some (0, 0) := by decide
  exact ⟨_, perform_eval h1 h2 h3, C1_effect_size_from_p (perform_eval h1 h2 h3)⟩

/-- C3: for every successful run, the significance field is the string
Yes exactly when the reported p-value is below 0.05, and the string No
exactly otherwise, for every choice of the invocation parameters. -/
theorem C3_significance_flag {lib : StatsLib} {df : DataFrame}
    {gc vc g1 g2 pf : String} {ts : Timestamp} {r : AnalysisOutput}
    (h : perform_mannwhitney_analysis lib df gc vc g1 g2 pf ts = some r) :
    (r.significant = "Yes" ↔ r.pValue < 0.05) ∧
    (r.significant = "No" ↔ ¬ (r.pValue < 0.05)) := by
  obtain ⟨xs, ys, u, p, h1, h2, h3, rfl⟩ := perform_some h
  constructor
  · by_cases hp : p < 0.05 <;> simp [hp]
  · by_cases hp : p < 0.05 <;> simp [hp]

theorem C3_significance_flag_witness :
    ∃ r, perform_mannwhitney_analysis wLib wdf "Group" "Value" "A" "B" "m" wTs
        = some r ∧
      (r.significant = "Yes" ↔ r.pValue < 0.05) ∧
      (r.significant = "No" ↔ ¬ (r.pValue < 0.05)) := by
  have h1 : toNums (groupData wdf "Group" "Value" "A") = some [5] := by decide
  have h2 : toNums (groupData wdf "Group" "Value" "B") = some [7] := by decide
  have h3 : wLib.mannwhitneyu [5] [7] = some (0, 0) := by decide
  exact ⟨_, perform_eval h1 h2 h3, C3_significance_flag (perform_eval h1 h2 h3)⟩

/-- C4: the Splitter of source lines 36-37 returns exactly the
value-column entries of the rows whose label column equals the target
string, in row order (it coincides with the row-walking spec model),
and it performs no emptiness check: an absent label yields the empty
sequence rather than an error. -/
theorem C4_splitter_refines_spec (df : DataFrame) (gc vc g : String) :
    groupData df gc vc g = splitterSpecModel df gc vc g ∧
    (∀ df2 : DataFrame, (∀ r ∈ df2, ¬ List.lookup gc r = some (Cell.str g)) →
      groupData df2 gc vc g = []) := by
  constructor
  · induction df with
    | nil => rfl
    | cons r rest ih =>
      by_cases h : List.lookup gc r = some (Cell.str g)
      · simpa [groupData, splitterSpecModel, List.filter_cons, rowMatches, h]
          using ih
      · simpa [groupData, splitterSpecModel, List.filter_cons, rowMatches, h]
          using ih
  · intro df2 hnone
    exact groupData_nil_of_absent df2 gc vc g hnone

theorem C4_splitter_refines_spec_witness :
    groupData [[("Group", Cell.str "A"), ("Value", Cell.num 5)]]
      "Group" "Value" "B" = [] :=
  (C4_splitter_refines_spec [] "Group" "Value" "B").2
    [[("Group", Cell.str "A"), ("Value", Cell.num 5)]] (by decide)

/-- C7: the descriptive statistics the Reporter computes for the fixed
sample 1,2,3,4,5 are exactly median 3, mean 3, 25th percentile 2 and
75th percentile 4, whatever square-root routine the library supplies. -/
theorem C7_descriptive_stats_fixed_sample :
    ∀ sq : ℚ → ℚ,
      (descStats sq [1,2,3,4,5]).median = some 3 ∧
      (descStats sq [1,2,3,4,5]).mean = some 3 ∧
      (descStats sq [1,2,3,4,5]).q25 = some 2 ∧
      (descStats sq [1,2,3,4,5]).q75 = some 4 := by
  intro sq
  refine ⟨?_, ?_, ?_, ?_⟩ <;>
    norm_num [descStats, median, meanQ, quantile, sortedVals,
      List.insertionSort, List.orderedInsert] <;> decide



/-- C2: on nonnegative effect sizes the interpretation returns the
negligible label iff r < 0.10, the small label iff 0.10 ≤ r < 0.30, the
medium label iff 0.30 ≤ r < 0.50 and the large label iff r ≥ 0.50; each
lower bound is inclusive. -/
theorem C2_effect_size_thresholds (r : ℚ) (h : 0 ≤ r) :
    (interpret_effect_size r = "Negligible effect" ↔ r < 0.10) ∧
    (interpret_effect_size r = "Small effect" ↔ 0.10 ≤ r ∧ r < 0.30) ∧
    (interpret_effect_size r = "Medium effect" ↔ 0.30 ≤ r ∧ r < 0.50) ∧
    (interpret_effect_size r = "Large effect" ↔ 0.50 ≤ r) ∧
    interpret_effect_size 0.10 = "Small effect" ∧
    interpret_effect_size 0.30 = "Medium effect" ∧
    interpret_effect_size 0.50 = "Large effect" := by
  refine ⟨?_, ?_, ?_, ?_,
    by norm_num [interpret_effect_size],
    by norm_num [interpret_effect_size],
    by norm_num [interpret_effect_size]⟩ <;>
  · unfold interpret_effect_size
    split_ifs with h1 h2 h3 <;> constructor <;> intro hx <;>
      simp_all <;>
      first
        | linarith
        | (exact ⟨by linarith, by linarith⟩)
        | (obtain ⟨hx1, hx2⟩ := hx; linarith)



theorem C2_effect_size_thresholds_witness :
    (interpret_effect_size 1 = "Negligible effect" ↔ (1 : ℚ) < 0.10) ∧
    (interpret_effect_size 1 = "Small effect" ↔ (0.10 : ℚ) ≤ 1 ∧ (1 : ℚ) < 0.30) ∧
    (interpret_effect_size 1 = "Medium effect" ↔ (0.30 : ℚ) ≤ 1 ∧ (1 : ℚ) < 0.50) ∧
    (interpret_effect_size 1 = "Large effect" ↔ (0.50 : ℚ) ≤ 1) ∧
    interpret_effect_size 0.10 = "Small effect" ∧
    interpret_effect_size 0.30 = "Medium effect" ∧
    interpret_effect_size 0.50 = "Large effect" :=
  C2_effect_size_thresholds 1 zero_le_one

/-- C5: whenever the two extracted samples are permutations of each
other (identical multisets) and nonempty, the run succeeds and reports
p-value 1 and effect size exactly 0. -/
theorem C5_identical_samples {lib : StatsLib} {df : DataFrame}
    {gc vc g1 g2 pf : String} {ts : Timestamp} {xs ys : List ℚ}
    (hspec : LibSpec lib)
    (h1 : toNums (groupData df gc vc g1) = some xs)
    (h2 : toNums (groupData df gc vc g2) = some ys)
    (hperm : xs.Perm ys) (hne : xs ≠ []) :
    ∃ r, perform_mannwhitney_analysis lib df gc vc g1 g2 pf ts = some r ∧
      r.pValue = 1 ∧ r.effectSize = 0 := by
  have hysne : ys ≠ [] := by
    intro hy
    exact hne (List.Perm.eq_nil (hy ▸ hperm))
  obtain ⟨u, p, hup⟩ : ∃ u p, lib.mannwhitneyu xs ys = some (u, p) := by
    cases hmw : lib.mannwhitneyu xs ys with
    | none =>
      rcases (hspec.mwu_none_iff xs ys).mp hmw with hx | hx
      · exact absurd hx hne
      · exact absurd hx hysne
    | some up =>
      obtain ⟨u0, p0⟩ := up
      exact ⟨u0, p0, rfl⟩
  have hp1 : p = 1 := hspec.mwu_identical xs ys u p hperm hup
  subst hp1
  refine ⟨_, perform_eval h1 h2 hup, rfl, ?_⟩
  show |lib.normPpf (1 / 2) / _| = 0
  rw [hspec.ppf_half]
  simp

theorem C5_identical_samples_witness :
    ∃ r, perform_mannwhitney_analysis wLib dfTwin "Group" "Value" "A" "B" "m" wTs
        = some r ∧ r.pValue = 1 ∧ r.effectSize = 0 := by
  have h1 : toNums (groupData dfTwin "Group" "Value" "A") = some [5] := by decide
  have h2 : toNums (groupData dfTwin "Group" "Value" "B") = some [5] := by decide
  exact C5_identical_samples wLib_spec h1 h2 (List.Perm.refl [5]) (by decide)

/-- C8: when either requested group label occurs in no row, the
Splitter yields the empty sequence for that label without any domain
check, the sample passed on for it is empty, and the run aborts with the
library error raised inside the rank-sum computation on the degenerate
empty sample — the none result of the pipeline is exactly that library
failure, with no earlier diagnostic and no handler. -/
theorem C8_absent_label_fails_in_library {lib : StatsLib} {df : DataFrame}
    {gc vc g1 g2 pf : String} {ts : Timestamp} {xs ys : List ℚ}
    (hspec : LibSpec lib)
    (h1 : toNums (groupData df gc vc g1) = some xs)
    (h2 : toNums (groupData df gc vc g2) = some ys)
    (habsent : (∀ r ∈ df, ¬ List.lookup gc r = some (Cell.str g1)) ∨
               (∀ r ∈ df, ¬ List.lookup gc r = some (Cell.str g2))) :
    (groupData df gc vc g1 = [] ∨ groupData df gc vc g2 = []) ∧
    (xs = [] ∨ ys = []) ∧
    lib.mannwhitneyu xs ys = none ∧
    perform_mannwhitney_analysis lib df gc vc g1 g2 pf ts = none := by
  rcases habsent with ha | ha
  · have hempty : groupData df gc vc g1 = [] :=
      groupData_nil_of_absent df gc vc g1 ha
    have hxs : xs = [] := by
      rw [hempty] at h1
      exact (Option.some.inj h1).symm
    have hmw : lib.mannwhitneyu xs ys = none :=
      (hspec.mwu_none_iff xs ys).mpr (Or.inl hxs)
    refine ⟨Or.inl hempty, Or.inl hxs, hmw, ?_⟩
    unfold perform_mannwhitney_analysis
    simp only [h1, h2, hmw]
  · have hempty : groupData df gc vc g2 = [] :=
      groupData_nil_of_absent df gc vc g2 ha
    have hys : ys = [] := by
      rw [hempty] at h2
      exact (Option.some.inj h2).symm
    have hmw : lib.mannwhitneyu xs ys = none :=
      (hspec.mwu_none_iff xs ys).mpr (Or.inr hys)
    refine ⟨Or.inr hempty, Or.inr hys, hmw, ?_⟩
    unfold perform_mannwhitney_analysis
    simp only [h1, h2, hmw]

theorem C8_absent_label_fails_in_library_witness :
    (groupData [[("Group", Cell.str "A"), ("Value", Cell.num 7)]]
        "Group" "Value" "A" = [] ∨
     groupData [[("Group", Cell.str "A"), ("Value", Cell.num 7)]]
        "Group" "Value" "B" = []) ∧
    (([7] : List ℚ) = [] ∨ ([] : List ℚ) = []) ∧
    wLib.mannwhitneyu [7] [] = none ∧
    perform_mannwhitney_analysis wLib
        [[("Group", Cell.str "A"), ("Value", Cell.num 7)]]
        "Group" "Value" "A" "B" "m" wTs = none :=
  C8_absent_label_fails_in_library wLib_spec (by decide) (by decide)
    (Or.inr (by decide))



/-- C9: for every successful run, the workbook filename is exactly the
output prefix, the results infix, the strftime timestamp and the xlsx
suffix concatenated, the plot filename the analogous png name with the
same timestamp, and for any in-range wall-clock instant the formatted
timestamp has the 15-character YYYYMMDD_HHMMSS shape. -/
theorem C9_output_filenames {lib : StatsLib} {df : DataFrame}
    {gc vc g1 g2 pf : String} {ts : Timestamp} {r : AnalysisOutput}
    (h : perform_mannwhitney_analysis lib df gc vc g1 g2 pf ts = some r)
    (hy : ts.year < 10000) (hmo : ts.month < 100) (hd : ts.day < 100)
    (hh : ts.hour < 100) (hmi : ts.minute < 100) (hs : ts.second < 100) :
    r.excelFile = pf ++ "_results_" ++ fmtTimestamp ts ++ ".xlsx" ∧
    r.plotFile = pf ++ "_plot_" ++ fmtTimestamp ts ++ ".png" ∧
    (fmtTimestamp ts).length = 15 := by
  obtain ⟨xs, ys, u, p, h1, h2, h3, rfl⟩ := perform_some h
  refine ⟨rfl, rfl, ?_⟩
  unfold fmtTimestamp
  simp only [String.length_append]
  rw [pad4_length _ hy, pad2_length _ hmo, pad2_length _ hd,
    pad2_length _ hh, pad2_length _ hmi, pad2_length _ hs]
  decide

theorem C9_output_filenames_witness :
    ∃ r, perform_mannwhitney_analysis wLib wdf "Group" "Value" "A" "B" "m" wTs
        = some r ∧
      (r.excelFile = "m" ++ "_results_" ++ fmtTimestamp wTs ++ ".xlsx" ∧
       r.plotFile = "m" ++ "_plot_" ++ fmtTimestamp wTs ++ ".png" ∧
       (fmtTimestamp wTs).length = 15) := by
  have h1 : toNums (groupData wdf "Group" "Value" "A") = some [5] := by decide
  have h2 : toNums (groupData wdf "Group" "Value" "B") = some [7] := by decide
  have h3 : wLib.mannwhitneyu [5] [7] = some (0, 0) := by decide
  exact ⟨_, perform_eval h1 h2 h3,
    C9_output_filenames (perform_eval h1 h2 h3) (by decide) (by decide)
      (by decide) (by decide) (by decide) (by decide)⟩

/-- C10: the standard deviation of the Reporter is the sample standard
deviation with denominator n - 1: on any single-observation group it is
undefined (NaN, embedded as none) rather than 0, on any group of at
least two observations it is the square root of the squared deviations
over n - 1, and a run whose first group holds exactly one value still
completes and reports the undefined standard deviation. -/
theorem C10_std_sample_ddof {lib : StatsLib} {ts : Timestamp} {pf : String}
    (hspec : LibSpec lib) :
    (∀ (sq : ℚ → ℚ) (q : ℚ), (descStats sq [q]).std = none) ∧
    (∀ (sq : ℚ → ℚ) (xs : List ℚ), 2 ≤ xs.length →
      (descStats sq xs).std = some (sq
        (((xs.map (fun x => (x - xs.sum / (xs.length : ℚ)) ^ 2)).sum)
          / ((xs.length : ℚ) - 1)))) ∧
    (∃ r, perform_mannwhitney_analysis lib dfSingle "Group" "Value" "A" "B" pf ts
        = some r ∧ r.descStats1.count = 1 ∧ r.descStats1.std = none) := by
  refine ⟨?_, ?_, ?_⟩
  · intro sq q
    simp [descStats, sampleVar]
  · intro sq xs hlen
    have hnot : ¬ xs.length < 2 := by omega
    simp [descStats, sampleVar, hnot]
  · have h1 : toNums (groupData dfSingle "Group" "Value" "A") = some [4] := by
      decide
    have h2 : toNums (groupData dfSingle "Group" "Value" "B") = some [1, 3] := by
      decide
    obtain ⟨u, p, hup⟩ : ∃ u p, lib.mannwhitneyu [4] [1, 3] = some (u, p) := by
      cases hmw : lib.mannwhitneyu [4] [1, 3] with
      | none =>
        rcases (hspec.mwu_none_iff [4] [1, 3]).mp hmw with hx | hx <;>
          exact absurd hx (by simp)
      | some up =>
        obtain ⟨u0, p0⟩ := up
        exact ⟨u0, p0, rfl⟩
    exact ⟨_, perform_eval h1 h2 hup, by simp [descStats],
      by simp [descStats, sampleVar]⟩

theorem C10_std_sample_ddof_witness :
    (∀ (sq : ℚ → ℚ) (q : ℚ), (descStats sq [q]).std = none) ∧
    (∀ (sq : ℚ → ℚ) (xs : List ℚ), 2 ≤ xs.length →
      (descStats sq xs).std = some (sq
        (((xs.map (fun x => (x - xs.sum / (xs.length : ℚ)) ^ 2)).sum)
          / ((xs.length : ℚ) - 1)))) ∧
    (∃ r, perform_mannwhitney_analysis wLib dfSingle "Group" "Value" "A" "B" "p" wTs
        = some r ∧ r.descStats1.count = 1 ∧ r.descStats1.std = none) :=
  C10_std_sample_ddof wLib_spec



/-- C6: on the 20-row Control-versus-Treatment input with values 1-10
and 11-20, whenever the library returns a two-sided p-value below 0.001
for the two extracted samples (as its normal-approximation rank-sum
method does on this fully separated input), the pipeline reports that
p-value, flags significance, and labels the effect size large. -/
theorem C6_end_to_end_scenario {lib : StatsLib} {u p : ℚ} {pf : String}
    {ts : Timestamp} (hspec : LibSpec lib)
    (hmw : lib.mannwhitneyu controlVals treatmentVals = some (u, p))
    (hp : p < 1/1000) :
    ∃ r, perform_mannwhitney_analysis lib df20 "Group" "Value"
        "Control" "Treatment" pf ts = some r ∧
      r.pValue < 1/1000 ∧ r.significant = "Yes" ∧
      r.interpretation = "Large effect" := by
  have h1 : toNums (groupData df20 "Group" "Value" "Control")
      = some controlVals := by decide
  have h2 : toNums (groupData df20 "Group" "Value" "Treatment")
      = some treatmentVals := by decide
  refine ⟨_, perform_eval h1 h2 hmw, hp, ?_, ?_⟩
  · show (if p < 0.05 then "Yes" else "No") = "Yes"
    have : p < 0.05 := by norm_num at hp ⊢; linarith
    simp [this]
  · show interpret_effect_size
      |lib.normPpf (p / 2) /
        lib.sqrt ((controlVals.length : ℚ) + (treatmentVals.length : ℚ))|
      = "Large effect"
    have hlen : ((controlVals.length : ℚ) + (treatmentVals.length : ℚ)) = 20 := by
      norm_num [controlVals, treatmentVals]
    rw [hlen]
    have hz : lib.normPpf (p / 2) ≤ -3 :=
      le_trans (hspec.ppf_mono (by linarith : p / 2 ≤ 1/2000)) hspec.ppf_lo
    have hs0 : 0 < lib.sqrt 20 := hspec.sqrt20_pos
    have hs5 : lib.sqrt 20 ≤ 5 := hspec.sqrt20_le
    have habs : (3 : ℚ)/5 ≤ |lib.normPpf (p / 2) / lib.sqrt 20| := by
      rw [abs_div, abs_of_pos hs0]
      have hz3 : (3 : ℚ) ≤ |lib.normPpf (p / 2)| := by
        rw [abs_of_nonpos (by linarith)]
        linarith
      rw [div_le_div_iff (by norm_num) hs0]
      nlinarith
    unfold interpret_effect_size
    rw [if_neg (by norm_num at habs ⊢; linarith),
      if_neg (by norm_num at habs ⊢; linarith),
      if_neg (by norm_num at habs ⊢; linarith)]

theorem C6_end_to_end_scenario_witness :
    ∃ r, perform_mannwhitney_analysis wLib df20 "Group" "Value"
        "Control" "Treatment" "mannwhitney" wTs = some r ∧
      r.pValue < 1/1000 ∧ r.significant = "Yes" ∧
      r.interpretation = "Large effect" :=
  @C6_end_to_end_scenario wLib 0 0 "mannwhitney" wTs wLib_spec (by decide)
    (by norm_num)

end MannWhitney
